import Mathlib

/-!
Verification of the comment-body resolution and update workflow of the
jira-cli command `issue comment update`
(internal/cmd/issue/comment/update/update.go).

The Go command is embedded shallowly as a deterministic function of an
environment `Env` that packages every external collaborator the file calls
into: the stdin probe, the file/stdin reader, the remote client
(GetIssueComment / UpdateIssueComment), the rich-text translators, the
terminal prompts, the browser navigator, and the global configuration read
through viper.  Each observable action of the command (file read, remote
fetch, prompt, update call, print, browser navigation) is recorded, in
program order, in an event trace, so that properties of the form
"no remote fetch is performed" or "navigation happens only after the
update call" become statements about the trace.
-/

namespace JiraCommentUpdate

/-- A parsed ADF (Atlassian Document Format) rich-document value, as carried
by a fetched comment body.  Its internal structure is irrelevant to this
workflow: it is only ever handed to the document-to-markdown translator. -/
structure ADF where
  raw : String
  deriving DecidableEq

/-- The dynamically typed body of a fetched comment
(`originalComment.Body` has type interface\x7b\x7d in Go): either a parsed
rich-document, a legacy markup string, or any other value. -/
inductive CommentBody where
  | doc (d : ADF)
  | str (s : String)
  | other
  deriving DecidableEq

/-- A fetched comment, as returned by the remote client's GetIssueComment. -/
structure Comment where
  body : CommentBody
  deriving DecidableEq

/-- Observable actions of one invocation, recorded in program order. -/
inductive Event where
  | readFileEv (path : String)
  | fetchComment (issueKey commentId : String)
  | promptInput (field : String)
  | promptEditor (defaultBody : String)
  | promptConfirm
  | updateCall (issueKey commentId body : String) (internal : Bool)
  | printSuccess (commentId issueKey : String)
  | printLink (url : String)
  | navigate (server issueKey : String)
  deriving DecidableEq

/-- How the invocation terminates: normally, via cmdutil.Failed or
cmdutil.ExitIfError with a message, or by a Go runtime panic. -/
inductive Outcome where
  | ok
  | failed (msg : String)
  | panicked
  deriving DecidableEq

/-- Result of one resolution step: either an updated value together with the
events the step emitted, or early termination with an outcome (the events
emitted up to that point included). -/
inductive StepRes (α : Type) where
  | ok (val : α) (tr : List Event)
  | fail (out : Outcome) (tr : List Event)

/-- The events a step emitted, whether it succeeded or terminated early. -/
def StepRes.events {α : Type} : StepRes α → List Event
  | .ok _ tr => tr
  | .fail _ tr => tr

/-- True when the step did not terminate the command. -/
def StepRes.isOk {α : Type} : StepRes α → Bool
  | .ok _ _ => true
  | .fail _ _ => false

/-- The external world of one invocation: every collaborator the Go file
calls into, made explicit.  Prompt answers are supplied by the environment;
the survey library's own guarantees (for example that a Select answer is
one of the offered options, or that the editor with BlankAllowed false
never yields a blank) are stated as hypotheses where a claim needs them. -/
structure Env where
  /-- cmdutil.StdinHasData: whether stdin has piped data buffered. -/
  stdinHasData : Bool
  /-- cmdutil.ReadFile: read the file at the given path; the empty path or
  the sentinel path reads stdin instead. -/
  readFile : String → Except String String
  /-- jira.Client.GetIssueComment. -/
  getComment : String → String → Except String Comment
  /-- jira.Client.UpdateIssueComment. -/
  updateComment : String → String → String → Bool → Except String Unit
  /-- cmdutil.Navigate: result of launching the browser. -/
  navigateRes : Except String Unit
  /-- adf.NewTranslator(..., adf.NewMarkdownTranslator()).Translate(). -/
  adfToMd : ADF → String
  /-- md.FromJiraMD. -/
  mdFromJiraMD : String → String
  /-- Answer the user gives to the issue-key input prompt. -/
  askIssueKey : String
  /-- Answer the user gives to the comment-id input prompt. -/
  askCommentId : String
  /-- Answer the editor prompt yields, as a function of its default text. -/
  askEditor : String → String
  /-- Answer the user picks at the submit/cancel select prompt. -/
  askAction : String
  /-- viper.GetString "project.key". -/
  projectKey : String
  /-- viper.GetString "server". -/
  serverURL : String

/-- Modelled from the spec: cmdcommon.ActionSubmit is not under src/; the
spec describes the confirmation as a two-option question with options
"submit" and "cancel". -/
def ActionSubmit : String := "submit"

/-- Modelled from the spec: cmdcommon.ActionCancel is not under src/. -/
def ActionCancel : String := "cancel"

/-- Modelled from the spec: cmdutil.GetJiraIssueKey is not under src/.  The
spec's issue-key expansion rule: a bare issue number gets the configured
default project key and a separator prepended; any other token passes
through unchanged. -/
def getJiraIssueKey (project key : String) : String :=
  if key ≠ "" ∧ key.data.all Char.isDigit then project ++ "-" ++ key else key

/-- Modelled from the spec: cmdutil.GenerateServerBrowseURL is not under
src/; the spec describes the printed link as the issue browse URL plus a
comment-focus query parameter. -/
def browseURL (server issueKey : String) : String :=
  server ++ "/browse/" ++ issueKey

/-- The error message of the mandatory-field guard (update.go line 80). -/
def mandatoryFieldsMsg : String :=
  "`ISSUE-KEY` & `COMMENT-ID` are mandatory when using a non-interactive mode"

/-- addParams (update.go lines 119-127). -/
structure AddParams where
  issueKey : String
  commentId : String
  body : String
  template : String
  noInput : Bool
  internal : Bool
  debug : Bool
  deriving DecidableEq

/-- The named flags of the command (update.go lines 59-62 plus the global
debug flag). -/
structure Flags where
  web : Bool
  template : String
  noInput : Bool
  internal : Bool
  debug : Bool
  deriving DecidableEq

/-- One command invocation: positional arguments plus parsed flags. -/
structure Invocation where
  args : List String
  flags : Flags
  deriving DecidableEq

/-- parseArgsAndFlags (update.go lines 129-164): positional argument 0 is
the issue key (after project-default expansion), 1 the comment id, 2 the
literal body; flags pass through. -/
def parseArgsAndFlags (projectKey : String) (args : List String) (flags : Flags) :
    AddParams :=
  let issueKey := match args with
    | [] => ""
    | a :: _ => getJiraIssueKey projectKey a
  { issueKey := issueKey
    commentId := args.getD 1 ""
    body := args.getD 2 ""
    template := flags.template
    noInput := flags.noInput
    internal := flags.internal
    debug := flags.debug }

/-- isNonInteractive (update.go lines 288-290). -/
def isNonInteractive (env : Env) (p : AddParams) : Bool :=
  env.stdinHasData || p.template == "-"

/-- isMandatoryParamsMissing (update.go lines 292-294). -/
def isMandatoryParamsMissing (p : AddParams) : Bool :=
  p.issueKey == "" || p.commentId == ""

/-- setIssueKey (update.go lines 172-190): prompt for the issue key when it
is still empty, then apply the project-default expansion to the answer. -/
def setIssueKey (env : Env) (p : AddParams) : AddParams × List Event :=
  if p.issueKey ≠ "" then (p, [])
  else ({ p with issueKey := getJiraIssueKey env.projectKey env.askIssueKey },
        [Event.promptInput "issueKey"])

/-- setCommentId (update.go lines 192-210): prompt for the comment id when
it is still empty. -/
def setCommentId (env : Env) (p : AddParams) : AddParams × List Event :=
  if p.commentId ≠ "" then (p, [])
  else ({ p with commentId := env.askCommentId },
        [Event.promptInput "commentId"])

/-- setBody, lines 222-228: when a template was named or stdin has piped
data, read the whole addressed content into the candidate default text; a
read failure is fatal, formatted with the "Error:" prefix. -/
def bodyFromTemplate (env : Env) (p : AddParams) : StepRes String :=
  if p.template ≠ "" ∨ env.stdinHasData then
    match env.readFile p.template with
    | .error e => .fail (.failed ("Error: " ++ e)) [Event.readFileEv p.template]
    | .ok b => .ok b [Event.readFileEv p.template]
  else .ok "" []

/-- setBody, lines 235-248: when no template was named, fetch the existing
comment and translate its body to markdown — through the ADF translator
when it is a rich-document, through the Jira-markup converter when it is a
string, and through an unchecked type assertion (a panic) otherwise.  A
fetch failure is fatal. -/
def bodyFromRemote (env : Env) (p : AddParams) (defaultBody : String) :
    StepRes String :=
  if p.template = "" then
    match env.getComment p.issueKey p.commentId with
    | .error e => .fail (.failed e) [Event.fetchComment p.issueKey p.commentId]
    | .ok c =>
      match c.body with
      | .doc d => .ok (env.adfToMd d) [Event.fetchComment p.issueKey p.commentId]
      | .str s =>
          .ok (env.mdFromJiraMD s) [Event.fetchComment p.issueKey p.commentId]
      | .other => .fail .panicked [Event.fetchComment p.issueKey p.commentId]
  else .ok defaultBody []

/-- setBody (update.go lines 212-272): the body source chain.  A non-empty
literal body short-circuits everything; otherwise a template or piped stdin
is read into the default text; noInput submits that default verbatim;
otherwise, when no template was given, the existing comment is fetched and
its body translated to markdown to become the default; finally the editor
prompt is shown with the default text pre-populated. -/
def setBody (env : Env) (p : AddParams) : StepRes AddParams :=
  if p.body ≠ "" then .ok p []
  else
    match bodyFromTemplate env p with
    | .fail o tr => .fail o tr
    | .ok defaultBody tr2 =>
      if p.noInput then .ok { p with body := defaultBody } tr2
      else
        match bodyFromRemote env p defaultBody with
        | .fail o tr4 => .fail o (tr2 ++ tr4)
        | .ok default2 tr4 =>
          if p.body = "" then
            .ok { p with body := env.askEditor default2 }
              (tr2 ++ tr4 ++ [Event.promptEditor default2])
          else .ok { p with body := "" } (tr2 ++ tr4)

/-- The commit step (update.go lines 100-116): call UpdateIssueComment; on
success print the confirmation and the focused-comment deep link, and when
the web flag is set attempt browser navigation, whose failure is fatal. -/
def commitEvents (env : Env) (web : Bool) (p : AddParams) : Outcome × List Event :=
  match env.updateComment p.issueKey p.commentId p.body p.internal with
  | .error e => (.failed e, [Event.updateCall p.issueKey p.commentId p.body p.internal])
  | .ok _ =>
    let base := [Event.updateCall p.issueKey p.commentId p.body p.internal,
                 Event.printSuccess p.commentId p.issueKey,
                 Event.printLink
                   (browseURL env.serverURL p.issueKey ++ "?focusedCommentId=" ++
                     p.commentId)]
    if web then
      match env.navigateRes with
      | .error e =>
          (.failed e, base ++ [Event.navigate env.serverURL p.issueKey])
      | .ok _ => (.ok, base ++ [Event.navigate env.serverURL p.issueKey])
    else (.ok, base)

/-- The part of update (update.go lines 84-116) after the non-interactive
guard: resolve issue key, comment id and body, ask the submit/cancel
confirmation unless noInput, then commit. -/
def afterGuard (env : Env) (inv : Invocation) (p : AddParams) :
    Outcome × List Event :=
  let r1 := setIssueKey env p
  let r2 := setCommentId env r1.1
  match setBody env r2.1 with
  | .fail o tb => (o, r1.2 ++ r2.2 ++ tb)
  | .ok pb tb =>
    let tr := r1.2 ++ r2.2 ++ tb
    if pb.noInput then
      let c := commitEvents env inv.flags.web pb
      (c.1, tr ++ c.2)
    else
      let tr := tr ++ [Event.promptConfirm]
      if env.askAction == ActionCancel then (.failed "Action aborted", tr)
      else
        let c := commitEvents env inv.flags.web pb
        (c.1, tr ++ c.2)

/-- update (update.go lines 67-117): parse arguments and flags; when the
invocation is detected as non-interactive, force noInput and fire the
mandatory-field guard; then run the resolution chain, confirmation and
commit. -/
def runUpdate (env : Env) (inv : Invocation) : Outcome × List Event :=
  let p0 := parseArgsAndFlags env.projectKey inv.args inv.flags
  if isNonInteractive env p0 then
    let p1 := { p0 with noInput := true }
    if isMandatoryParamsMissing p1 then (.failed mandatoryFieldsMsg, [])
    else afterGuard env inv p1
  else afterGuard env inv p0

/-- The params as the body-resolution step sees them: after the issue-key
and comment-id prompts have (possibly) filled in the missing fields. -/
def paramsBeforeBody (env : Env) (p : AddParams) : AddParams :=
  (setCommentId env (setIssueKey env p).1).1

/-- The effective params of an invocation: the parsed ones, with noInput
forced when the invocation is detected as non-interactive. -/
def effectiveParams (env : Env) (inv : Invocation) : AddParams :=
  let p0 := parseArgsAndFlags env.projectKey inv.args inv.flags
  if isNonInteractive env p0 then { p0 with noInput := true } else p0

/-- A concrete environment for evaluating the workflow at specific inputs:
a terminal with no piped data, a file reader that always yields
"file content", a remote comment whose body is the legacy string
"old body", an update call and a browser launch that succeed, identity-like
translators, and the default project key "PROJ". -/
def sampleEnv : Env where
  stdinHasData := false
  readFile := fun _ => .ok "file content"
  getComment := fun _ _ => .ok ⟨.str "old body"⟩
  updateComment := fun _ _ _ _ => .ok ()
  navigateRes := .ok ()
  adfToMd := fun d => d.raw
  mdFromJiraMD := fun s => s
  askIssueKey := "42"
  askCommentId := "777"
  askEditor := fun d => d ++ "!"
  askAction := "submit"
  projectKey := "PROJ"
  serverURL := "https://jira.example.com"

/-- Like sampleEnv but the user picks "cancel" at the confirmation. -/
def envCancel : Env :=
  { sampleEnv with askAction := "cancel" }

/-- Like sampleEnv but the fetched comment body is neither a rich-document
nor a string. -/
def envOther : Env :=
  { sampleEnv with getComment := fun _ _ => .ok ⟨.other⟩ }

/-- An invocation with a literal positional body and a template flag. -/
def invLiteral : Invocation :=
  ⟨["ISSUE-1", "986745", "comment from arg"],
   { web := false, template := "/tmp/body.tmpl", noInput := false,
     internal := false, debug := false }⟩

/-- An invocation with no positional arguments and the stdin template
sentinel. -/
def invStdinSentinel : Invocation :=
  ⟨[], { web := false, template := "-", noInput := false, internal := false,
         debug := false }⟩

/-- An invocation naming issue and comment, with a template file and the
no-input flag. -/
def invTemplateNoInput : Invocation :=
  ⟨["ISSUE-1", "986745"],
   { web := false, template := "/tmp/body.tmpl", noInput := true,
     internal := false, debug := false }⟩

/-- An invocation naming issue and comment, with the no-input flag and no
body source at all. -/
def invBareNoInput : Invocation :=
  ⟨["ISSUE-1", "986745"],
   { web := false, template := "", noInput := true, internal := false,
     debug := false }⟩

/-- The spec's scenario: a bare issue number, a comment id and a literal
body, with the internal flag set. -/
def invScenario : Invocation :=
  ⟨["12", "1001", "fixed typo"],
   { web := false, template := "", noInput := false, internal := true,
     debug := false }⟩

/-- An invocation with only the no-input flag: no arguments, no template. -/
def invOnlyNoInput : Invocation :=
  ⟨[], { web := false, template := "", noInput := true, internal := false,
         debug := false }⟩

/-- An invocation naming issue and comment only, interactively. -/
def invInteractive : Invocation :=
  ⟨["ISSUE-1", "986745"],
   { web := false, template := "", noInput := false, internal := false,
     debug := false }⟩

/-- An invocation like invInteractive but asking for the browser. -/
def invWeb : Invocation :=
  ⟨["ISSUE-1", "986745", "done"],
   { web := true, template := "", noInput := false, internal := false,
     debug := false }⟩

/-! ### Basic lemmas about the resolution steps -/

section StepLemmas

variable (env : Env) (p : AddParams)

lemma setIssueKey_of_ne (h : p.issueKey ≠ "") : setIssueKey env p = (p, []) := by
  unfold setIssueKey; simp [h]

lemma setIssueKey_of_eq (h : p.issueKey = "") :
    setIssueKey env p =
      ({ p with issueKey := getJiraIssueKey env.projectKey env.askIssueKey },
       [Event.promptInput "issueKey"]) := by
  unfold setIssueKey; simp [h]

lemma setCommentId_of_ne (h : p.commentId ≠ "") : setCommentId env p = (p, []) := by
  unfold setCommentId; simp [h]

lemma setCommentId_of_eq (h : p.commentId = "") :
    setCommentId env p =
      ({ p with commentId := env.askCommentId }, [Event.promptInput "commentId"]) := by
  unfold setCommentId; simp [h]

@[simp] lemma setIssueKey_body : ((setIssueKey env p).1).body = p.body := by
  unfold setIssueKey; split <;> rfl

@[simp] lemma setIssueKey_commentId :
    ((setIssueKey env p).1).commentId = p.commentId := by
  unfold setIssueKey; split <;> rfl

@[simp] lemma setIssueKey_template :
    ((setIssueKey env p).1).template = p.template := by
  unfold setIssueKey; split <;> rfl

@[simp] lemma setIssueKey_noInput :
    ((setIssueKey env p).1).noInput = p.noInput := by
  unfold setIssueKey; split <;> rfl

@[simp] lemma setIssueKey_internal :
    ((setIssueKey env p).1).internal = p.internal := by
  unfold setIssueKey; split <;> rfl

@[simp] lemma setCommentId_body : ((setCommentId env p).1).body = p.body := by
  unfold setCommentId; split <;> rfl

@[simp] lemma setCommentId_issueKey :
    ((setCommentId env p).1).issueKey = p.issueKey := by
  unfold setCommentId; split <;> rfl

@[simp] lemma setCommentId_template :
    ((setCommentId env p).1).template = p.template := by
  unfold setCommentId; split <;> rfl

@[simp] lemma setCommentId_noInput :
    ((setCommentId env p).1).noInput = p.noInput := by
  unfold setCommentId; split <;> rfl

@[simp] lemma setCommentId_internal :
    ((setCommentId env p).1).internal = p.internal := by
  unfold setCommentId; split <;> rfl

@[simp] lemma paramsBeforeBody_body : (paramsBeforeBody env p).body = p.body := by
  unfold paramsBeforeBody; simp

@[simp] lemma paramsBeforeBody_template :
    (paramsBeforeBody env p).template = p.template := by
  unfold paramsBeforeBody; simp

@[simp] lemma paramsBeforeBody_noInput :
    (paramsBeforeBody env p).noInput = p.noInput := by
  unfold paramsBeforeBody; simp

@[simp] lemma paramsBeforeBody_internal :
    (paramsBeforeBody env p).internal = p.internal := by
  unfold paramsBeforeBody; simp

lemma setIssueKey_events :
    (setIssueKey env p).2 = [] ∨
      (setIssueKey env p).2 = [Event.promptInput "issueKey"] := by
  unfold setIssueKey; split
  · exact Or.inl rfl
  · exact Or.inr rfl

lemma setCommentId_events :
    (setCommentId env p).2 = [] ∨
      (setCommentId env p).2 = [Event.promptInput "commentId"] := by
  unfold setCommentId; split
  · exact Or.inl rfl
  · exact Or.inr rfl

lemma bodyFromTemplate_events {e : Event}
    (he : e ∈ (bodyFromTemplate env p).events) :
    e = Event.readFileEv p.template := by
  unfold bodyFromTemplate at he
  split at he
  · split at he <;> simp [StepRes.events] at he <;> exact he
  · simp [StepRes.events] at he

lemma bodyFromRemote_events {d : String} {e : Event}
    (he : e ∈ (bodyFromRemote env p d).events) :
    e = Event.fetchComment p.issueKey p.commentId := by
  unfold bodyFromRemote at he
  split at he
  · split at he
    · simp [StepRes.events] at he; exact he
    · split at he <;> simp [StepRes.events] at he <;> exact he
  · simp [StepRes.events] at he

lemma setBody_events {e : Event} (he : e ∈ (setBody env p).events) :
    e = Event.readFileEv p.template ∨
      e = Event.fetchComment p.issueKey p.commentId ∨
      ∃ d, e = Event.promptEditor d := by
  unfold setBody at he
  split at he
  · simp [StepRes.events] at he
  · split at he
    · rename_i o tr hbt
      exact Or.inl (bodyFromTemplate_events env p (by simp [hbt, StepRes.events] at he ⊢; exact he))
    · rename_i defaultBody tr2 hbt
      split at he
      · have := bodyFromTemplate_events env p (e := e)
        simp [hbt, StepRes.events] at this he
        exact Or.inl (this he)
      · split at he
        · rename_i o tr4 hbr
          simp [StepRes.events] at he
          rcases he with he | he
          · have := bodyFromTemplate_events env p (e := e)
            simp [hbt, StepRes.events] at this
            exact Or.inl (this he)
          · have := bodyFromRemote_events env p (d := defaultBody) (e := e)
            simp [hbr, StepRes.events] at this
            exact Or.inr (Or.inl (this he))
        · rename_i default2 tr4 hbr
          have hT : e ∈ tr2 → e = Event.readFileEv p.template := by
            intro h
            have := bodyFromTemplate_events env p (e := e)
            simp [hbt, StepRes.events] at this
            exact this h
          have hR : e ∈ tr4 → e = Event.fetchComment p.issueKey p.commentId := by
            intro h
            have := bodyFromRemote_events env p (d := defaultBody) (e := e)
            simp [hbr, StepRes.events] at this
            exact this h
          split at he
          · simp [StepRes.events] at he
            rcases he with he | he | he
            · exact Or.inl (hT he)
            · exact Or.inr (Or.inl (hR he))
            · exact Or.inr (Or.inr ⟨default2, he⟩)
          · simp [StepRes.events] at he
            rcases he with he | he
            · exact Or.inl (hT he)
            · exact Or.inr (Or.inl (hR he))

lemma setIssueKey_prompt_only {e : Event} (he : e ∈ (setIssueKey env p).2) :
    ∃ f, e = Event.promptInput f := by
  rcases setIssueKey_events env p with h | h <;> rw [h] at he <;> simp at he
  exact ⟨"issueKey", he⟩

lemma setCommentId_prompt_only {e : Event} (he : e ∈ (setCommentId env p).2) :
    ∃ f, e = Event.promptInput f := by
  rcases setCommentId_events env p with h | h <;> rw [h] at he <;> simp at he
  exact ⟨"commentId", he⟩

end StepLemmas

/-! ### Case equations for the body source chain -/

section BodyCases

variable (env : Env) (p : AddParams)

lemma setBody_literal (h : p.body ≠ "") : setBody env p = .ok p [] := by
  unfold setBody; simp [h]

lemma bodyFromTemplate_read_ok (h2 : p.template ≠ "" ∨ env.stdinHasData = true)
    {c : String} (hc : env.readFile p.template = .ok c) :
    bodyFromTemplate env p = .ok c [Event.readFileEv p.template] := by
  unfold bodyFromTemplate
  rw [if_pos h2, hc]

lemma bodyFromTemplate_read_error (h2 : p.template ≠ "" ∨ env.stdinHasData = true)
    {e : String} (hc : env.readFile p.template = .error e) :
    bodyFromTemplate env p =
      .fail (.failed ("Error: " ++ e)) [Event.readFileEv p.template] := by
  unfold bodyFromTemplate
  rw [if_pos h2, hc]

lemma bodyFromTemplate_none (h2 : p.template = "") (h3 : env.stdinHasData = false) :
    bodyFromTemplate env p = .ok "" [] := by
  unfold bodyFromTemplate
  rw [if_neg (by simp [h2, h3])]

lemma bodyFromRemote_skip (h : p.template ≠ "") (d : String) :
    bodyFromRemote env p d = .ok d [] := by
  unfold bodyFromRemote
  rw [if_neg (by simp [h])]

lemma bodyFromRemote_error (h : p.template = "") {e : String} {d : String}
    (hg : env.getComment p.issueKey p.commentId = .error e) :
    bodyFromRemote env p d =
      .fail (.failed e) [Event.fetchComment p.issueKey p.commentId] := by
  unfold bodyFromRemote
  rw [if_pos h, hg]

lemma bodyFromRemote_doc (h : p.template = "") {dd : ADF} {d : String}
    (hg : env.getComment p.issueKey p.commentId = .ok ⟨.doc dd⟩) :
    bodyFromRemote env p d =
      .ok (env.adfToMd dd) [Event.fetchComment p.issueKey p.commentId] := by
  unfold bodyFromRemote
  rw [if_pos h, hg]

lemma bodyFromRemote_str (h : p.template = "") {s : String} {d : String}
    (hg : env.getComment p.issueKey p.commentId = .ok ⟨.str s⟩) :
    bodyFromRemote env p d =
      .ok (env.mdFromJiraMD s) [Event.fetchComment p.issueKey p.commentId] := by
  unfold bodyFromRemote
  rw [if_pos h, hg]

lemma bodyFromRemote_other (h : p.template = "") {d : String}
    (hg : env.getComment p.issueKey p.commentId = .ok ⟨.other⟩) :
    bodyFromRemote env p d =
      .fail .panicked [Event.fetchComment p.issueKey p.commentId] := by
  unfold bodyFromRemote
  rw [if_pos h, hg]

lemma setBody_noInput (h0 : p.body = "") (h1 : p.noInput = true)
    {c : String} {tr : List Event} (hbt : bodyFromTemplate env p = .ok c tr) :
    setBody env p = .ok { p with body := c } tr := by
  unfold setBody
  rw [if_neg (by simp [h0]), hbt]
  simp [h1]

lemma setBody_fail_template (h0 : p.body = "") {o : Outcome} {tr : List Event}
    (hbt : bodyFromTemplate env p = .fail o tr) :
    setBody env p = .fail o tr := by
  unfold setBody
  rw [if_neg (by simp [h0]), hbt]

lemma setBody_fail_remote (h0 : p.body = "") (h1 : p.noInput = false)
    {c : String} {tr2 : List Event} {o : Outcome} {tr4 : List Event}
    (hbt : bodyFromTemplate env p = .ok c tr2)
    (hbr : bodyFromRemote env p c = .fail o tr4) :
    setBody env p = .fail o (tr2 ++ tr4) := by
  unfold setBody
  rw [if_neg (by simp [h0]), hbt]
  simp [h1, hbr]

lemma setBody_interactive (h0 : p.body = "") (h1 : p.noInput = false)
    {c d : String} {tr2 tr4 : List Event}
    (hbt : bodyFromTemplate env p = .ok c tr2)
    (hbr : bodyFromRemote env p c = .ok d tr4) :
    setBody env p =
      .ok { p with body := env.askEditor d }
        (tr2 ++ tr4 ++ [Event.promptEditor d]) := by
  unfold setBody
  rw [if_neg (by simp [h0]), hbt]
  simp [h1, hbr, h0]

end BodyCases

/-! ### Case equations for the commit step -/

section CommitLemmas

variable (env : Env) (web : Bool) (p : AddParams)

lemma commitEvents_update_error {e : String}
    (hu : env.updateComment p.issueKey p.commentId p.body p.internal = .error e) :
    commitEvents env web p =
      (.failed e, [Event.updateCall p.issueKey p.commentId p.body p.internal]) := by
  unfold commitEvents
  rw [hu]

lemma commitEvents_mem {e : Event} (he : e ∈ (commitEvents env web p).2) :
    e = Event.updateCall p.issueKey p.commentId p.body p.internal ∨
      e = Event.printSuccess p.commentId p.issueKey ∨
      e = Event.printLink
        (browseURL env.serverURL p.issueKey ++ "?focusedCommentId=" ++ p.commentId) ∨
      e = Event.navigate env.serverURL p.issueKey := by
  unfold commitEvents at he
  split at he
  · simp at he
    exact Or.inl he
  · split at he
    · split at he <;> simp at he <;> tauto
    · simp at he
      tauto

lemma commitEvents_updateCall {k c b : String} {i : Bool}
    (he : Event.updateCall k c b i ∈ (commitEvents env web p).2) :
    k = p.issueKey ∧ c = p.commentId ∧ b = p.body ∧ i = p.internal := by
  rcases commitEvents_mem env web p he with h | h | h | h <;> simp_all

lemma commitEvents_web_ok (hw : web = true) {u : Unit}
    (hu : env.updateComment p.issueKey p.commentId p.body p.internal = .ok u) :
    commitEvents env web p =
      ((match env.navigateRes with
        | .error e => Outcome.failed e
        | .ok _ => Outcome.ok),
       [Event.updateCall p.issueKey p.commentId p.body p.internal,
        Event.printSuccess p.commentId p.issueKey,
        Event.printLink
          (browseURL env.serverURL p.issueKey ++ "?focusedCommentId=" ++
            p.commentId),
        Event.navigate env.serverURL p.issueKey]) := by
  unfold commitEvents
  rw [hu, hw]
  cases hnav : env.navigateRes <;> simp

lemma commitEvents_noweb_ok (hw : web = false) {u : Unit}
    (hu : env.updateComment p.issueKey p.commentId p.body p.internal = .ok u) :
    commitEvents env web p =
      (.ok,
       [Event.updateCall p.issueKey p.commentId p.body p.internal,
        Event.printSuccess p.commentId p.issueKey,
        Event.printLink
          (browseURL env.serverURL p.issueKey ++ "?focusedCommentId=" ++
            p.commentId)]) := by
  unfold commitEvents
  rw [hu, hw]
  simp

lemma commitEvents_navigate {s k : String}
    (he : Event.navigate s k ∈ (commitEvents env web p).2) :
    web = true ∧
      env.updateComment p.issueKey p.commentId p.body p.internal = .ok () ∧
      commitEvents env web p =
        ((match env.navigateRes with
          | .error e => Outcome.failed e
          | .ok _ => Outcome.ok),
         [Event.updateCall p.issueKey p.commentId p.body p.internal,
          Event.printSuccess p.commentId p.issueKey,
          Event.printLink
            (browseURL env.serverURL p.issueKey ++ "?focusedCommentId=" ++
              p.commentId),
          Event.navigate env.serverURL p.issueKey]) ∧
      s = env.serverURL ∧ k = p.issueKey := by
  cases hu : env.updateComment p.issueKey p.commentId p.body p.internal with
  | error e =>
    rw [commitEvents_update_error env web p hu] at he
    simp at he
  | ok u =>
    cases u
    rcases Bool.eq_false_or_eq_true web with hw | hw
    · have heq := commitEvents_web_ok env web p hw hu
      rw [heq] at he
      simp at he
      exact ⟨hw, rfl, heq, he.1, he.2⟩
    · rw [commitEvents_noweb_ok env web p hw hu] at he
      simp at he

end CommitLemmas

/-! ### Equations for the whole workflow -/

section FlowLemmas

variable (env : Env) (inv : Invocation) (p : AddParams)

@[simp] lemma parseArgsAndFlags_commentId (pk : String) (args : List String)
    (flags : Flags) : (parseArgsAndFlags pk args flags).commentId = args.getD 1 "" :=
  rfl

@[simp] lemma parseArgsAndFlags_body (pk : String) (args : List String)
    (flags : Flags) : (parseArgsAndFlags pk args flags).body = args.getD 2 "" :=
  rfl

@[simp] lemma parseArgsAndFlags_template (pk : String) (args : List String)
    (flags : Flags) : (parseArgsAndFlags pk args flags).template = flags.template :=
  rfl

@[simp] lemma parseArgsAndFlags_noInput (pk : String) (args : List String)
    (flags : Flags) : (parseArgsAndFlags pk args flags).noInput = flags.noInput :=
  rfl

@[simp] lemma parseArgsAndFlags_internal (pk : String) (args : List String)
    (flags : Flags) : (parseArgsAndFlags pk args flags).internal = flags.internal :=
  rfl

lemma parseArgsAndFlags_issueKey (pk : String) (args : List String)
    (flags : Flags) :
    (parseArgsAndFlags pk args flags).issueKey =
      match args with
      | [] => ""
      | a :: _ => getJiraIssueKey pk a :=
  rfl

@[simp] lemma isMandatoryParamsMissing_setNoInput (b : Bool) :
    isMandatoryParamsMissing { p with noInput := b } = isMandatoryParamsMissing p :=
  rfl

lemma afterGuard_fail {o : Outcome} {tb : List Event}
    (h : setBody env (paramsBeforeBody env p) = .fail o tb) :
    afterGuard env inv p =
      (o, (setIssueKey env p).2 ++ (setCommentId env (setIssueKey env p).1).2 ++ tb) := by
  unfold paramsBeforeBody at h
  simp only [afterGuard]
  rw [h]

lemma afterGuard_ok_noInput {pb : AddParams} {tb : List Event}
    (h : setBody env (paramsBeforeBody env p) = .ok pb tb) (hni : pb.noInput = true) :
    afterGuard env inv p =
      ((commitEvents env inv.flags.web pb).1,
       (setIssueKey env p).2 ++ (setCommentId env (setIssueKey env p).1).2 ++ tb ++
         (commitEvents env inv.flags.web pb).2) := by
  unfold paramsBeforeBody at h
  simp only [afterGuard]
  rw [h]
  simp [hni]

lemma afterGuard_ok_cancel {pb : AddParams} {tb : List Event}
    (h : setBody env (paramsBeforeBody env p) = .ok pb tb) (hni : pb.noInput = false)
    (ha : env.askAction = ActionCancel) :
    afterGuard env inv p =
      (.failed "Action aborted",
       (setIssueKey env p).2 ++ (setCommentId env (setIssueKey env p).1).2 ++ tb ++
         [Event.promptConfirm]) := by
  unfold paramsBeforeBody at h
  simp only [afterGuard]
  rw [h]
  simp [hni, ha]

lemma afterGuard_ok_submit {pb : AddParams} {tb : List Event}
    (h : setBody env (paramsBeforeBody env p) = .ok pb tb) (hni : pb.noInput = false)
    (ha : env.askAction ≠ ActionCancel) :
    afterGuard env inv p =
      ((commitEvents env inv.flags.web pb).1,
       (setIssueKey env p).2 ++ (setCommentId env (setIssueKey env p).1).2 ++ tb ++
         [Event.promptConfirm] ++ (commitEvents env inv.flags.web pb).2) := by
  unfold paramsBeforeBody at h
  simp only [afterGuard]
  rw [h]
  simp [hni, ha]

lemma runUpdate_guard_fire
    (h1 : isNonInteractive env (parseArgsAndFlags env.projectKey inv.args inv.flags) = true)
    (h2 : isMandatoryParamsMissing (parseArgsAndFlags env.projectKey inv.args inv.flags) = true) :
    runUpdate env inv = (.failed mandatoryFieldsMsg, []) := by
  unfold runUpdate
  dsimp only
  split
  · split
    · rfl
    · rename_i hm
      exact absurd h2 hm
  · rename_i hn
    exact absurd h1 hn

lemma runUpdate_guard_pass
    (h1 : isNonInteractive env (parseArgsAndFlags env.projectKey inv.args inv.flags) = true)
    (h2 : isMandatoryParamsMissing (parseArgsAndFlags env.projectKey inv.args inv.flags) = false) :
    runUpdate env inv =
      afterGuard env inv
        { parseArgsAndFlags env.projectKey inv.args inv.flags with noInput := true } := by
  unfold runUpdate
  dsimp only
  split
  · split
    · rename_i hm
      have h2' :
          isMandatoryParamsMissing
            { parseArgsAndFlags env.projectKey inv.args inv.flags with
                noInput := true } = false := h2
      rw [h2'] at hm
      cases hm
    · rfl
  · rename_i hn
    exact absurd h1 hn

lemma runUpdate_interactive
    (h : isNonInteractive env (parseArgsAndFlags env.projectKey inv.args inv.flags) = false) :
    runUpdate env inv =
      afterGuard env inv (parseArgsAndFlags env.projectKey inv.args inv.flags) := by
  unfold runUpdate
  simp [h]

lemma effectiveParams_of_nonInteractive
    (h1 : isNonInteractive env (parseArgsAndFlags env.projectKey inv.args inv.flags) = true) :
    effectiveParams env inv =
      { parseArgsAndFlags env.projectKey inv.args inv.flags with noInput := true } := by
  unfold effectiveParams
  simp [h1]

lemma effectiveParams_of_interactive
    (h1 : isNonInteractive env (parseArgsAndFlags env.projectKey inv.args inv.flags) = false) :
    effectiveParams env inv = parseArgsAndFlags env.projectKey inv.args inv.flags := by
  unfold effectiveParams
  simp [h1]

@[simp] lemma effectiveParams_body :
    (effectiveParams env inv).body = inv.args.getD 2 "" := by
  by_cases h :
      isNonInteractive env (parseArgsAndFlags env.projectKey inv.args inv.flags) = true
  · rw [effectiveParams_of_nonInteractive env inv h]
    simp
  · have h' :
        isNonInteractive env (parseArgsAndFlags env.projectKey inv.args inv.flags) =
          false := by
      simpa using h
    rw [effectiveParams_of_interactive env inv h']
    simp

@[simp] lemma effectiveParams_template :
    (effectiveParams env inv).template = inv.flags.template := by
  by_cases h :
      isNonInteractive env (parseArgsAndFlags env.projectKey inv.args inv.flags) = true
  · rw [effectiveParams_of_nonInteractive env inv h]
    simp
  · have h' :
        isNonInteractive env (parseArgsAndFlags env.projectKey inv.args inv.flags) =
          false := by
      simpa using h
    rw [effectiveParams_of_interactive env inv h']
    simp

@[simp] lemma effectiveParams_internal :
    (effectiveParams env inv).internal = inv.flags.internal := by
  by_cases h :
      isNonInteractive env (parseArgsAndFlags env.projectKey inv.args inv.flags) = true
  · rw [effectiveParams_of_nonInteractive env inv h]
    simp
  · have h' :
        isNonInteractive env (parseArgsAndFlags env.projectKey inv.args inv.flags) =
          false := by
      simpa using h
    rw [effectiveParams_of_interactive env inv h']
    simp

lemma effectiveParams_noInput_true_iff :
    (effectiveParams env inv).noInput = true ↔
      inv.flags.noInput = true ∨
        isNonInteractive env (parseArgsAndFlags env.projectKey inv.args inv.flags) = true := by
  by_cases h :
      isNonInteractive env (parseArgsAndFlags env.projectKey inv.args inv.flags) = true
  · rw [effectiveParams_of_nonInteractive env inv h]
    simp [h]
  · have h' :
        isNonInteractive env (parseArgsAndFlags env.projectKey inv.args inv.flags) =
          false := by
      simpa using h
    rw [effectiveParams_of_interactive env inv h']
    simp [h']

lemma no_updateCall_setIssueKey {k c b : String} {i : Bool} :
    Event.updateCall k c b i ∉ (setIssueKey env p).2 := by
  intro h
  obtain ⟨f, hf⟩ := setIssueKey_prompt_only env p h
  cases hf

lemma no_updateCall_setCommentId {k c b : String} {i : Bool} :
    Event.updateCall k c b i ∉ (setCommentId env p).2 := by
  intro h
  obtain ⟨f, hf⟩ := setCommentId_prompt_only env p h
  cases hf

lemma no_updateCall_setBody {k c b : String} {i : Bool} :
    Event.updateCall k c b i ∉ (setBody env p).events := by
  intro h
  rcases setBody_events env p h with h | h | ⟨d, h⟩ <;> cases h

lemma setBody_ok_empty_body (hE : ∀ d, env.askEditor d ≠ "")
    {pb : AddParams} {tb : List Event}
    (h : setBody env p = .ok pb tb) (hb : pb.body = "") :
    p.noInput = true := by
  unfold setBody at h
  split at h
  · rename_i hlit
    simp only [StepRes.ok.injEq] at h
    rw [← h.1] at hb
    exact absurd hb hlit
  · rename_i hlit
    split at h
    · cases h
    · rename_i c tr2 hbt
      split at h
      · rename_i hni
        exact hni
      · rename_i hni
        split at h
        · cases h
        · rename_i d tr4 hbr
          split at h
          · simp only [StepRes.ok.injEq] at h
            rw [← h.1] at hb
            simp at hb
            exact absurd hb (hE d)
          · rename_i hb2
            exact absurd (by simpa using hlit) hb2

lemma afterGuard_updateCall {k c b : String} {i : Bool}
    (h : Event.updateCall k c b i ∈ (afterGuard env inv p).2) :
    ∃ pb tb, setBody env (paramsBeforeBody env p) = .ok pb tb ∧
      k = pb.issueKey ∧ c = pb.commentId ∧ b = pb.body ∧ i = pb.internal := by
  cases hsb : setBody env (paramsBeforeBody env p) with
  | fail o tb =>
    rw [afterGuard_fail env inv p hsb] at h
    simp only [List.mem_append] at h
    rcases h with (h | h) | h
    · exact absurd h (no_updateCall_setIssueKey env p)
    · exact absurd h (no_updateCall_setCommentId env _)
    · have hm : Event.updateCall k c b i ∈ (setBody env (paramsBeforeBody env p)).events := by
        rw [hsb]
        exact h
      exact absurd hm (no_updateCall_setBody env _)
  | ok pb tb =>
    have hm : Event.updateCall k c b i ∈ (setBody env (paramsBeforeBody env p)).events →
        False := fun hx => no_updateCall_setBody env _ hx
    refine ⟨pb, tb, rfl, ?_⟩
    rcases Bool.eq_false_or_eq_true pb.noInput with hni | hni
    · rw [afterGuard_ok_noInput env inv p hsb hni] at h
      simp only [List.mem_append] at h
      rcases h with ((h | h) | h) | h
      · exact absurd h (no_updateCall_setIssueKey env p)
      · exact absurd h (no_updateCall_setCommentId env _)
      · exact absurd (by rw [hsb]; exact h) hm
      · exact commitEvents_updateCall env _ pb h
    · by_cases ha : env.askAction = ActionCancel
      · rw [afterGuard_ok_cancel env inv p hsb hni ha] at h
        simp only [List.mem_append] at h
        rcases h with ((h | h) | h) | h
        · exact absurd h (no_updateCall_setIssueKey env p)
        · exact absurd h (no_updateCall_setCommentId env _)
        · exact absurd (by rw [hsb]; exact h) hm
        · simp at h
      · rw [afterGuard_ok_submit env inv p hsb hni ha] at h
        simp only [List.mem_append] at h
        rcases h with (((h | h) | h) | h) | h
        · exact absurd h (no_updateCall_setIssueKey env p)
        · exact absurd h (no_updateCall_setCommentId env _)
        · exact absurd (by rw [hsb]; exact h) hm
        · simp at h
        · exact commitEvents_updateCall env _ pb h

lemma runUpdate_updateCall {k c b : String} {i : Bool}
    (h : Event.updateCall k c b i ∈ (runUpdate env inv).2) :
    ∃ pb tb,
      setBody env (paramsBeforeBody env (effectiveParams env inv)) = .ok pb tb ∧
      k = pb.issueKey ∧ c = pb.commentId ∧ b = pb.body ∧ i = pb.internal := by
  by_cases h1 :
      isNonInteractive env (parseArgsAndFlags env.projectKey inv.args inv.flags) = true
  · by_cases h2 :
        isMandatoryParamsMissing (parseArgsAndFlags env.projectKey inv.args inv.flags) =
          true
    · rw [runUpdate_guard_fire env inv h1 h2] at h
      simp at h
    · have h2' :
          isMandatoryParamsMissing
            (parseArgsAndFlags env.projectKey inv.args inv.flags) = false := by
        simpa using h2
      rw [runUpdate_guard_pass env inv h1 h2'] at h
      rw [effectiveParams_of_nonInteractive env inv h1]
      exact afterGuard_updateCall env inv _ h
  · have h1' :
        isNonInteractive env (parseArgsAndFlags env.projectKey inv.args inv.flags) =
          false := by
      simpa using h1
    rw [runUpdate_interactive env inv h1'] at h
    rw [effectiveParams_of_interactive env inv h1']
    exact afterGuard_updateCall env inv _ h

lemma commitEvents_updateCall_self (web : Bool) :
    Event.updateCall p.issueKey p.commentId p.body p.internal ∈
      (commitEvents env web p).2 := by
  unfold commitEvents
  split
  · simp
  · split
    · split <;> simp
    · simp

lemma afterGuard_mem {e : Event} (he : e ∈ (afterGuard env inv p).2) :
    (∃ f, e = Event.promptInput f) ∨
      e ∈ (setBody env (paramsBeforeBody env p)).events ∨
      e = Event.promptConfirm ∨
      ∃ pb tb, setBody env (paramsBeforeBody env p) = .ok pb tb ∧
        e ∈ (commitEvents env inv.flags.web pb).2 := by
  cases hsb : setBody env (paramsBeforeBody env p) with
  | fail o tb =>
    rw [afterGuard_fail env inv p hsb] at he
    simp only [List.mem_append] at he
    rcases he with (h | h) | h
    · exact Or.inl (setIssueKey_prompt_only env p h)
    · exact Or.inl (setCommentId_prompt_only env _ h)
    · exact Or.inr (Or.inl h)
  | ok pb tb =>
    rcases Bool.eq_false_or_eq_true pb.noInput with hni | hni
    · rw [afterGuard_ok_noInput env inv p hsb hni] at he
      simp only [List.mem_append] at he
      rcases he with ((h | h) | h) | h
      · exact Or.inl (setIssueKey_prompt_only env p h)
      · exact Or.inl (setCommentId_prompt_only env _ h)
      · exact Or.inr (Or.inl h)
      · exact Or.inr (Or.inr (Or.inr ⟨pb, tb, rfl, h⟩))
    · by_cases ha : env.askAction = ActionCancel
      · rw [afterGuard_ok_cancel env inv p hsb hni ha] at he
        simp only [List.mem_append] at he
        rcases he with ((h | h) | h) | h
        · exact Or.inl (setIssueKey_prompt_only env p h)
        · exact Or.inl (setCommentId_prompt_only env _ h)
        · exact Or.inr (Or.inl h)
        · simp at h
          exact Or.inr (Or.inr (Or.inl h))
      · rw [afterGuard_ok_submit env inv p hsb hni ha] at he
        simp only [List.mem_append] at he
        rcases he with (((h | h) | h) | h) | h
        · exact Or.inl (setIssueKey_prompt_only env p h)
        · exact Or.inl (setCommentId_prompt_only env _ h)
        · exact Or.inr (Or.inl h)
        · simp at h
          exact Or.inr (Or.inr (Or.inl h))
        · exact Or.inr (Or.inr (Or.inr ⟨pb, tb, rfl, h⟩))

lemma runUpdate_mem {e : Event} (he : e ∈ (runUpdate env inv).2) :
    (∃ f, e = Event.promptInput f) ∨
      e ∈ (setBody env (paramsBeforeBody env (effectiveParams env inv))).events ∨
      e = Event.promptConfirm ∨
      ∃ pb tb,
        setBody env (paramsBeforeBody env (effectiveParams env inv)) = .ok pb tb ∧
          e ∈ (commitEvents env inv.flags.web pb).2 := by
  by_cases h1 :
      isNonInteractive env (parseArgsAndFlags env.projectKey inv.args inv.flags) = true
  · by_cases h2 :
        isMandatoryParamsMissing (parseArgsAndFlags env.projectKey inv.args inv.flags) =
          true
    · rw [runUpdate_guard_fire env inv h1 h2] at he
      simp at he
    · have h2' :
          isMandatoryParamsMissing
            (parseArgsAndFlags env.projectKey inv.args inv.flags) = false := by
        simpa using h2
      rw [runUpdate_guard_pass env inv h1 h2'] at he
      rw [effectiveParams_of_nonInteractive env inv h1]
      exact afterGuard_mem env inv _ he
  · have h1' :
        isNonInteractive env (parseArgsAndFlags env.projectKey inv.args inv.flags) =
          false := by
      simpa using h1
    rw [runUpdate_interactive env inv h1'] at he
    rw [effectiveParams_of_interactive env inv h1']
    exact afterGuard_mem env inv _ he

lemma effectiveParams_noInput_of_flag (h : inv.flags.noInput = true) :
    (effectiveParams env inv).noInput = true :=
  (effectiveParams_noInput_true_iff env inv).2 (Or.inl h)

lemma setBody_ok_fields {pb : AddParams} {tb : List Event}
    (h : setBody env p = .ok pb tb) :
    pb.issueKey = p.issueKey ∧ pb.commentId = p.commentId ∧
      pb.template = p.template ∧ pb.noInput = p.noInput ∧ pb.internal = p.internal := by
  unfold setBody at h
  split at h
  · simp only [StepRes.ok.injEq] at h
    rw [← h.1]
    exact ⟨rfl, rfl, rfl, rfl, rfl⟩
  · split at h
    · cases h
    · split at h
      · simp only [StepRes.ok.injEq] at h
        rw [← h.1]
        exact ⟨rfl, rfl, rfl, rfl, rfl⟩
      · split at h
        · cases h
        · split at h <;>
            (simp only [StepRes.ok.injEq] at h
             rw [← h.1]
             exact ⟨rfl, rfl, rfl, rfl, rfl⟩)

lemma setBody_noInput_no_editor (hni : p.noInput = true) {d : String} :
    Event.promptEditor d ∉ (setBody env p).events := by
  intro h
  unfold setBody at h
  split at h
  · simp [StepRes.events] at h
  · split at h
    · rename_i o tr hbt
      have h' : Event.promptEditor d ∈ (bodyFromTemplate env p).events := by
        rw [hbt]
        exact h
      cases bodyFromTemplate_events env p h'
    · rename_i c tr2 hbt
      have h' : Event.promptEditor d ∈ (bodyFromTemplate env p).events := by
        rw [hbt]
        simpa [StepRes.events] using h
      cases bodyFromTemplate_events env p h'

lemma afterGuard_contains_setBody_events {e : Event}
    (he : e ∈ (setBody env (paramsBeforeBody env p)).events) :
    e ∈ (afterGuard env inv p).2 := by
  cases hsb : setBody env (paramsBeforeBody env p) with
  | fail o tb =>
    rw [afterGuard_fail env inv p hsb]
    rw [hsb] at he
    simp [StepRes.events] at he
    simp [he]
  | ok pb tb =>
    rw [hsb] at he
    simp [StepRes.events] at he
    rcases Bool.eq_false_or_eq_true pb.noInput with hni | hni
    · rw [afterGuard_ok_noInput env inv p hsb hni]
      simp [he]
    · by_cases ha : env.askAction = ActionCancel
      · rw [afterGuard_ok_cancel env inv p hsb hni ha]
        simp [he]
      · rw [afterGuard_ok_submit env inv p hsb hni ha]
        simp [he]

lemma afterGuard_noInput_no_confirm
    (hqni : (paramsBeforeBody env p).noInput = true) :
    Event.promptConfirm ∉ (afterGuard env inv p).2 := by
  intro hmem
  cases hsb : setBody env (paramsBeforeBody env p) with
  | fail o tb =>
    rw [afterGuard_fail env inv p hsb] at hmem
    simp only [List.mem_append] at hmem
    rcases hmem with (h | h) | h
    · obtain ⟨f, hf⟩ := setIssueKey_prompt_only env p h
      cases hf
    · obtain ⟨f, hf⟩ := setCommentId_prompt_only env _ h
      cases hf
    · have h' : Event.promptConfirm ∈ (setBody env (paramsBeforeBody env p)).events := by
        rw [hsb]
        exact h
      rcases setBody_events env _ h' with h2 | h2 | ⟨d, h2⟩ <;> cases h2
  | ok pb tb =>
    have hpbni : pb.noInput = true := by
      rw [(setBody_ok_fields env _ hsb).2.2.2.1]
      exact hqni
    rw [afterGuard_ok_noInput env inv p hsb hpbni] at hmem
    simp only [List.mem_append] at hmem
    rcases hmem with ((h | h) | h) | h
    · obtain ⟨f, hf⟩ := setIssueKey_prompt_only env p h
      cases hf
    · obtain ⟨f, hf⟩ := setCommentId_prompt_only env _ h
      cases hf
    · have h' : Event.promptConfirm ∈ (setBody env (paramsBeforeBody env p)).events := by
        rw [hsb]
        exact h
      rcases setBody_events env _ h' with h2 | h2 | ⟨d, h2⟩ <;> cases h2
    · rcases commitEvents_mem env _ pb h with h2 | h2 | h2 | h2 <;> cases h2

lemma afterGuard_navigate {s k : String}
    (hmem : Event.navigate s k ∈ (afterGuard env inv p).2) :
    ∃ (pre : List Event) (pb : AddParams),
      (afterGuard env inv p).2 =
        pre ++ [Event.updateCall pb.issueKey pb.commentId pb.body pb.internal,
          Event.printSuccess pb.commentId pb.issueKey,
          Event.printLink
            (browseURL env.serverURL pb.issueKey ++ "?focusedCommentId=" ++
              pb.commentId),
          Event.navigate env.serverURL pb.issueKey] ∧
      env.updateComment pb.issueKey pb.commentId pb.body pb.internal = .ok () ∧
      s = env.serverURL ∧ k = pb.issueKey ∧
      (afterGuard env inv p).1 =
        (match env.navigateRes with
          | .error e => Outcome.failed e
          | .ok _ => Outcome.ok) := by
  cases hsb : setBody env (paramsBeforeBody env p) with
  | fail o tb =>
    rw [afterGuard_fail env inv p hsb] at hmem
    simp only [List.mem_append] at hmem
    rcases hmem with (h | h) | h
    · obtain ⟨f, hf⟩ := setIssueKey_prompt_only env p h
      cases hf
    · obtain ⟨f, hf⟩ := setCommentId_prompt_only env _ h
      cases hf
    · have h' : Event.navigate s k ∈ (setBody env (paramsBeforeBody env p)).events := by
        rw [hsb]
        exact h
      rcases setBody_events env _ h' with h2 | h2 | ⟨d, h2⟩ <;> cases h2
  | ok pb tb =>
    have hbody : ∀ h : Event.navigate s k ∈ tb, False := by
      intro h
      have h' : Event.navigate s k ∈ (setBody env (paramsBeforeBody env p)).events := by
        rw [hsb]
        exact h
      rcases setBody_events env _ h' with h2 | h2 | ⟨d, h2⟩ <;> cases h2
    rcases Bool.eq_false_or_eq_true pb.noInput with hni | hni
    · have hag := afterGuard_ok_noInput env inv p hsb hni
      rw [hag] at hmem
      simp only [List.mem_append] at hmem
      have hc : Event.navigate s k ∈ (commitEvents env inv.flags.web pb).2 := by
        rcases hmem with ((h | h) | h) | h
        · obtain ⟨f, hf⟩ := setIssueKey_prompt_only env p h
          cases hf
        · obtain ⟨f, hf⟩ := setCommentId_prompt_only env _ h
          cases hf
        · exact absurd h (fun hx => hbody hx)
        · exact h
      obtain ⟨hw', hu, heqc, hs', hk⟩ := commitEvents_navigate env _ pb hc
      refine ⟨(setIssueKey env p).2 ++ (setCommentId env (setIssueKey env p).1).2 ++ tb,
        pb, ?_, hu, hs', hk, ?_⟩
      · rw [hag, heqc]
      · rw [hag, heqc]
    · by_cases ha : env.askAction = ActionCancel
      · have hag := afterGuard_ok_cancel env inv p hsb hni ha
        rw [hag] at hmem
        simp only [List.mem_append] at hmem
        rcases hmem with (((h | h) | h) | h)
        · obtain ⟨f, hf⟩ := setIssueKey_prompt_only env p h
          cases hf
        · obtain ⟨f, hf⟩ := setCommentId_prompt_only env _ h
          cases hf
        · exact absurd h (fun hx => hbody hx)
        · simp at h
      · have hag := afterGuard_ok_submit env inv p hsb hni ha
        rw [hag] at hmem
        simp only [List.mem_append] at hmem
        have hc : Event.navigate s k ∈ (commitEvents env inv.flags.web pb).2 := by
          rcases hmem with ((((h | h) | h) | h) | h)
          · obtain ⟨f, hf⟩ := setIssueKey_prompt_only env p h
            cases hf
          · obtain ⟨f, hf⟩ := setCommentId_prompt_only env _ h
            cases hf
          · exact absurd h (fun hx => hbody hx)
          · simp at h
          · exact h
        obtain ⟨hw', hu, heqc, hs', hk⟩ := commitEvents_navigate env _ pb hc
        refine ⟨(setIssueKey env p).2 ++ (setCommentId env (setIssueKey env p).1).2 ++
            tb ++ [Event.promptConfirm], pb, ?_, hu, hs', hk, ?_⟩
        · rw [hag, heqc]
        · rw [hag, heqc]

lemma runUpdate_navigate {s k : String}
    (hmem : Event.navigate s k ∈ (runUpdate env inv).2) :
    ∃ (pre : List Event) (pb : AddParams),
      (runUpdate env inv).2 =
        pre ++ [Event.updateCall pb.issueKey pb.commentId pb.body pb.internal,
          Event.printSuccess pb.commentId pb.issueKey,
          Event.printLink
            (browseURL env.serverURL pb.issueKey ++ "?focusedCommentId=" ++
              pb.commentId),
          Event.navigate env.serverURL pb.issueKey] ∧
      env.updateComment pb.issueKey pb.commentId pb.body pb.internal = .ok () ∧
      s = env.serverURL ∧ k = pb.issueKey ∧
      (runUpdate env inv).1 =
        (match env.navigateRes with
          | .error e => Outcome.failed e
          | .ok _ => Outcome.ok) := by
  by_cases h1 :
      isNonInteractive env (parseArgsAndFlags env.projectKey inv.args inv.flags) = true
  · by_cases h2 :
        isMandatoryParamsMissing (parseArgsAndFlags env.projectKey inv.args inv.flags) =
          true
    · rw [runUpdate_guard_fire env inv h1 h2] at hmem
      simp at hmem
    · have h2' :
          isMandatoryParamsMissing
            (parseArgsAndFlags env.projectKey inv.args inv.flags) = false := by
        simpa using h2
      rw [runUpdate_guard_pass env inv h1 h2'] at hmem ⊢
      exact afterGuard_navigate env inv _ hmem
  · have h1' :
        isNonInteractive env (parseArgsAndFlags env.projectKey inv.args inv.flags) =
          false := by
      simpa using h1
    rw [runUpdate_interactive env inv h1'] at hmem ⊢
    exact afterGuard_navigate env inv _ hmem

end FlowLemmas

/-! ### The claims -/

/-- C1: for every invocation whose positional body argument is a non-empty
string, the body submitted to the remote update call equals that argument
verbatim, regardless of the template flag value, piped stdin content, or
the remote comment's existing content (the environment is universally
quantified); and the trace contains no file/stdin read event and no remote
fetch of the existing comment. -/
theorem C1_literal_body_precedence (env : Env) (inv : Invocation)
    (hb : inv.args.getD 2 "" ≠ "") :
    (∀ k c b i, Event.updateCall k c b i ∈ (runUpdate env inv).2 →
        b = inv.args.getD 2 "") ∧
      (∀ path, Event.readFileEv path ∉ (runUpdate env inv).2) ∧
      (∀ k c, Event.fetchComment k c ∉ (runUpdate env inv).2) := by
  have hqb :
      (paramsBeforeBody env (effectiveParams env inv)).body = inv.args.getD 2 "" := by
    simp
  have hlit := setBody_literal env (paramsBeforeBody env (effectiveParams env inv))
    (by rw [hqb]; exact hb)
  refine ⟨?_, ?_, ?_⟩
  · intro k c b i hmem
    obtain ⟨pb, tb, hsb, _, _, hb', _⟩ := runUpdate_updateCall env inv hmem
    rw [hlit] at hsb
    simp only [StepRes.ok.injEq] at hsb
    rw [hb', ← hsb.1, hqb]
  · intro path hmem
    rcases runUpdate_mem env inv hmem with ⟨f, hf⟩ | h | h | ⟨pb, tb, hsb, hc⟩
    · cases hf
    · rw [hlit] at h
      simp [StepRes.events] at h
    · cases h
    · rcases commitEvents_mem env _ pb hc with h | h | h | h <;> cases h
  · intro k c hmem
    rcases runUpdate_mem env inv hmem with ⟨f, hf⟩ | h | h | ⟨pb, tb, hsb, hc⟩
    · cases hf
    · rw [hlit] at h
      simp [StepRes.events] at h
    · cases h
    · rcases commitEvents_mem env _ pb hc with h | h | h | h <;> cases h

/-- Witness for C1: the literal-body invocation with a template flag set. -/
theorem C1_literal_body_precedence_witness :
    invLiteral.args.getD 2 "" ≠ "" ∧
      ((∀ k c b i, Event.updateCall k c b i ∈ (runUpdate sampleEnv invLiteral).2 →
          b = invLiteral.args.getD 2 "") ∧
        (∀ path, Event.readFileEv path ∉ (runUpdate sampleEnv invLiteral).2) ∧
        (∀ k c, Event.fetchComment k c ∉ (runUpdate sampleEnv invLiteral).2)) :=
  ⟨by decide, C1_literal_body_precedence sampleEnv invLiteral (by decide)⟩

/-- C2: an invocation detected as non-interactive (piped stdin, or template
flag "-") whose resolved issue key or comment id is empty terminates with
the specific mandatory-field error and an empty event trace — so no remote
call happened and stdin's body content was never read. -/
theorem C2_nonInteractive_mandatory_guard (env : Env) (inv : Invocation)
    (h1 : env.stdinHasData = true ∨ inv.flags.template = "-")
    (h2 : (parseArgsAndFlags env.projectKey inv.args inv.flags).issueKey = "" ∨
        (parseArgsAndFlags env.projectKey inv.args inv.flags).commentId = "") :
    runUpdate env inv = (.failed mandatoryFieldsMsg, []) := by
  apply runUpdate_guard_fire
  · unfold isNonInteractive
    rcases h1 with h | h <;> simp [h]
  · unfold isMandatoryParamsMissing
    rcases h2 with h | h <;> rw [h] <;> simp

/-- Witness for C2: piped stdin via the "-" template sentinel and no
arguments at all. -/
theorem C2_nonInteractive_mandatory_guard_witness :
    (sampleEnv.stdinHasData = true ∨ invStdinSentinel.flags.template = "-") ∧
      ((parseArgsAndFlags sampleEnv.projectKey invStdinSentinel.args
            invStdinSentinel.flags).issueKey = "" ∨
        (parseArgsAndFlags sampleEnv.projectKey invStdinSentinel.args
            invStdinSentinel.flags).commentId = "") ∧
      runUpdate sampleEnv invStdinSentinel = (.failed mandatoryFieldsMsg, []) :=
  ⟨Or.inr rfl, Or.inl rfl,
    C2_nonInteractive_mandatory_guard sampleEnv invStdinSentinel (Or.inr rfl)
      (Or.inl rfl)⟩

/-- C3: with the no-input flag, an empty positional body and a non-empty,
readable template path, every remote update call submits exactly the file's
content, and no remote fetch of the existing comment happens. -/
theorem C3_template_noInput_verbatim (env : Env) (inv : Invocation)
    (content : String)
    (hni : inv.flags.noInput = true)
    (hb : inv.args.getD 2 "" = "")
    (ht : inv.flags.template ≠ "")
    (hr : env.readFile inv.flags.template = .ok content) :
    (∀ k c b i, Event.updateCall k c b i ∈ (runUpdate env inv).2 → b = content) ∧
      (∀ k c, Event.fetchComment k c ∉ (runUpdate env inv).2) := by
  have hqb : (paramsBeforeBody env (effectiveParams env inv)).body = "" := by
    rw [paramsBeforeBody_body, effectiveParams_body]
    exact hb
  have hqni : (paramsBeforeBody env (effectiveParams env inv)).noInput = true := by
    rw [paramsBeforeBody_noInput]
    exact effectiveParams_noInput_of_flag env inv hni
  have hbt : bodyFromTemplate env (paramsBeforeBody env (effectiveParams env inv)) =
      .ok content
        [Event.readFileEv
          (paramsBeforeBody env (effectiveParams env inv)).template] := by
    apply bodyFromTemplate_read_ok
    · left
      simp [ht]
    · simp [hr]
  have hsb := setBody_noInput env (paramsBeforeBody env (effectiveParams env inv))
    hqb hqni hbt
  constructor
  · intro k c b i hmem
    obtain ⟨pb, tb, hsb', _, _, hb', _⟩ := runUpdate_updateCall env inv hmem
    rw [hsb] at hsb'
    simp only [StepRes.ok.injEq] at hsb'
    rw [hb', ← hsb'.1]
  · intro k c hmem
    rcases runUpdate_mem env inv hmem with ⟨f, hf⟩ | h | h | ⟨pb, tb, hsb', hc⟩
    · cases hf
    · rw [hsb] at h
      simp [StepRes.events] at h
    · cases h
    · rcases commitEvents_mem env _ pb hc with h | h | h | h <;> cases h

/-- Witness for C3: issue, comment and a template file with no-input. -/
theorem C3_template_noInput_verbatim_witness :
    invTemplateNoInput.flags.noInput = true ∧
      invTemplateNoInput.args.getD 2 "" = "" ∧
      invTemplateNoInput.flags.template ≠ "" ∧
      sampleEnv.readFile invTemplateNoInput.flags.template = .ok "file content" ∧
      ((∀ k c b i,
          Event.updateCall k c b i ∈ (runUpdate sampleEnv invTemplateNoInput).2 →
            b = "file content") ∧
        (∀ k c,
          Event.fetchComment k c ∉ (runUpdate sampleEnv invTemplateNoInput).2)) :=
  ⟨rfl, rfl, by decide, rfl,
    C3_template_noInput_verbatim sampleEnv invTemplateNoInput "file content" rfl rfl
      (by decide) rfl⟩

/-- C4: with the no-input flag, an empty positional body, an empty template
path and no piped stdin, an update call with the empty body is issued; and
(under the editor's blank-rejection contract) any run whose update call
carries an empty body was in forced non-interactive mode, i.e. the
non-interactive short-circuit is the only path to an empty final body. -/
theorem C4_empty_body_short_circuit (env : Env) (inv : Invocation)
    (hni : inv.flags.noInput = true)
    (hb : inv.args.getD 2 "" = "")
    (ht : inv.flags.template = "")
    (hs : env.stdinHasData = false) :
    (∃ k c, Event.updateCall k c "" inv.flags.internal ∈ (runUpdate env inv).2) ∧
      (∀ (envA : Env) (invA : Invocation) (k c : String) (i : Bool),
        (∀ d, envA.askEditor d ≠ "") →
        Event.updateCall k c "" i ∈ (runUpdate envA invA).2 →
        (effectiveParams envA invA).noInput = true) := by
  have hint :
      isNonInteractive env (parseArgsAndFlags env.projectKey inv.args inv.flags) =
        false := by
    unfold isNonInteractive
    simp [hs, ht]
  have hrun := runUpdate_interactive env inv hint
  have heff := effectiveParams_of_interactive env inv hint
  have hqb : (paramsBeforeBody env (effectiveParams env inv)).body = "" := by
    rw [paramsBeforeBody_body, effectiveParams_body]
    exact hb
  have hqt : (paramsBeforeBody env (effectiveParams env inv)).template = "" := by
    simp [ht]
  have hqni : (paramsBeforeBody env (effectiveParams env inv)).noInput = true := by
    rw [paramsBeforeBody_noInput]
    exact effectiveParams_noInput_of_flag env inv hni
  have hbt := bodyFromTemplate_none env (paramsBeforeBody env (effectiveParams env inv))
    hqt hs
  have hsb := setBody_noInput env (paramsBeforeBody env (effectiveParams env inv))
    hqb hqni hbt
  constructor
  · have hsb' :
        setBody env (paramsBeforeBody env (parseArgsAndFlags env.projectKey
          inv.args inv.flags)) =
          .ok { paramsBeforeBody env (effectiveParams env inv) with body := "" } [] := by
      rw [← heff]
      exact hsb
    have hpb :
        ({ paramsBeforeBody env (effectiveParams env inv) with
            body := "" } : AddParams).noInput = true := hqni
    have hag := afterGuard_ok_noInput env inv
      (parseArgsAndFlags env.projectKey inv.args inv.flags) hsb' hpb
    have hmem := commitEvents_updateCall_self env
      ({ paramsBeforeBody env (effectiveParams env inv) with body := "" })
      inv.flags.web
    refine ⟨(paramsBeforeBody env (effectiveParams env inv)).issueKey,
      (paramsBeforeBody env (effectiveParams env inv)).commentId, ?_⟩
    rw [hrun, hag]
    simp only [List.mem_append]
    right
    simpa using hmem
  · intro envA invA k c i hE hmem
    obtain ⟨pb, tb, hsb', _, _, hb', _⟩ := runUpdate_updateCall envA invA hmem
    have hpbb : pb.body = "" := hb'.symm
    have hn := setBody_ok_empty_body envA
      (paramsBeforeBody envA (effectiveParams envA invA)) hE hsb' hpbb
    rw [paramsBeforeBody_noInput] at hn
    exact hn

/-- Witness for C4: no-input with no body source at all. -/
theorem C4_empty_body_short_circuit_witness :
    invBareNoInput.flags.noInput = true ∧
      invBareNoInput.args.getD 2 "" = "" ∧
      invBareNoInput.flags.template = "" ∧
      sampleEnv.stdinHasData = false ∧
      ((∃ k c,
          Event.updateCall k c "" invBareNoInput.flags.internal ∈
            (runUpdate sampleEnv invBareNoInput).2) ∧
        (∀ (envA : Env) (invA : Invocation) (k c : String) (i : Bool),
          (∀ d, envA.askEditor d ≠ "") →
          Event.updateCall k c "" i ∈ (runUpdate envA invA).2 →
          (effectiveParams envA invA).noInput = true)) :=
  ⟨rfl, rfl, rfl, rfl,
    C4_empty_body_short_circuit sampleEnv invBareNoInput rfl rfl rfl rfl⟩

/-- C5: in interactive mode (no no-input flag, no piped stdin, no stdin
template sentinel), once body resolution succeeds, the submit/cancel
confirmation is asked; an answer that is one of the two offered options but
not "submit" (hence "cancel") makes the command fail with "Action aborted"
and no remote update call appears in the trace. -/
theorem C5_confirmation_gate (env : Env) (inv : Invocation)
    (hni : inv.flags.noInput = false)
    (hs : env.stdinHasData = false)
    (ht : inv.flags.template ≠ "-")
    (hok : (setBody env (paramsBeforeBody env (effectiveParams env inv))).isOk = true)
    (hopt : env.askAction = ActionSubmit ∨ env.askAction = ActionCancel)
    (hans : env.askAction ≠ ActionSubmit) :
    (runUpdate env inv).1 = .failed "Action aborted" ∧
      Event.promptConfirm ∈ (runUpdate env inv).2 ∧
      ∀ k c b i, Event.updateCall k c b i ∉ (runUpdate env inv).2 := by
  have ha : env.askAction = ActionCancel := by
    rcases hopt with h | h
    · exact absurd h hans
    · exact h
  have hint :
      isNonInteractive env (parseArgsAndFlags env.projectKey inv.args inv.flags) =
        false := by
    unfold isNonInteractive
    rw [parseArgsAndFlags_template, hs]
    simp [ht]
  have hrun := runUpdate_interactive env inv hint
  have heff := effectiveParams_of_interactive env inv hint
  cases hsb : setBody env (paramsBeforeBody env (effectiveParams env inv)) with
  | fail o tb =>
    rw [hsb] at hok
    simp [StepRes.isOk] at hok
  | ok pb tb =>
    have hqni : (paramsBeforeBody env (effectiveParams env inv)).noInput = false := by
      rw [paramsBeforeBody_noInput, heff, parseArgsAndFlags_noInput]
      exact hni
    have hpbni : pb.noInput = false := by
      rw [(setBody_ok_fields env _ hsb).2.2.2.1]
      exact hqni
    have hsb' :
        setBody env
          (paramsBeforeBody env (parseArgsAndFlags env.projectKey inv.args inv.flags)) =
          .ok pb tb := by
      rw [← heff]
      exact hsb
    have hag := afterGuard_ok_cancel env inv
      (parseArgsAndFlags env.projectKey inv.args inv.flags) hsb' hpbni ha
    rw [hrun, hag]
    refine ⟨rfl, ?_, ?_⟩
    · simp
    · intro k c b i hm
      simp only [List.mem_append] at hm
      rcases hm with ((h | h) | h) | h
      · exact no_updateCall_setIssueKey env _ h
      · exact no_updateCall_setCommentId env _ h
      · exact no_updateCall_setBody env _ (by rw [hsb']; exact h)
      · simp at h

/-- Witness for C5: the user cancels at the confirmation. -/
theorem C5_confirmation_gate_witness :
    invInteractive.flags.noInput = false ∧
      envCancel.stdinHasData = false ∧
      invInteractive.flags.template ≠ "-" ∧
      (setBody envCancel
          (paramsBeforeBody envCancel (effectiveParams envCancel invInteractive))).isOk =
        true ∧
      (envCancel.askAction = ActionSubmit ∨ envCancel.askAction = ActionCancel) ∧
      envCancel.askAction ≠ ActionSubmit ∧
      ((runUpdate envCancel invInteractive).1 = .failed "Action aborted" ∧
        Event.promptConfirm ∈ (runUpdate envCancel invInteractive).2 ∧
        ∀ k c b i, Event.updateCall k c b i ∉ (runUpdate envCancel invInteractive).2) :=
  ⟨rfl, rfl, by decide, by decide, Or.inr rfl, by decide,
    C5_confirmation_gate envCancel invInteractive rfl rfl (by decide) (by decide)
      (Or.inr rfl) (by decide)⟩

/-- C6 counterexample: in the scenario (args ["12", "1001", "fixed typo"],
default project "PROJ", internal set, no piped stdin, no template) the
command still issues the submit/cancel confirmation prompt, so "no prompts
of any kind are issued" is false on the code. -/
theorem C6_scenario_counterexample :
    Event.promptConfirm ∈ (runUpdate sampleEnv invScenario).2 := by
  decide

/-- C6 (amended): in the scenario the issue key expands to PROJ-12 and no
input or editor prompt is issued, but the submit/cancel confirmation is
asked; when its answer is "submit", the remote update is called with
(PROJ-12, 1001, "fixed typo", true). -/
theorem C6_scenario_amended (env : Env)
    (hp : env.projectKey = "PROJ")
    (hs : env.stdinHasData = false)
    (ha : env.askAction = ActionSubmit) :
    Event.updateCall "PROJ-12" "1001" "fixed typo" true ∈
        (runUpdate env invScenario).2 ∧
      Event.promptConfirm ∈ (runUpdate env invScenario).2 ∧
      (∀ f, Event.promptInput f ∉ (runUpdate env invScenario).2) ∧
      (∀ d, Event.promptEditor d ∉ (runUpdate env invScenario).2) := by
  have hint :
      isNonInteractive env
        (parseArgsAndFlags env.projectKey invScenario.args invScenario.flags) =
        false := by
    unfold isNonInteractive
    rw [parseArgsAndFlags_template, hs]
    rfl
  have hrun := runUpdate_interactive env invScenario hint
  have hkey :
      (parseArgsAndFlags env.projectKey invScenario.args invScenario.flags).issueKey =
        "PROJ-12" := by
    rw [parseArgsAndFlags_issueKey]
    show getJiraIssueKey env.projectKey "12" = "PROJ-12"
    rw [hp]
    rfl
  have h1 := setIssueKey_of_ne env
    (parseArgsAndFlags env.projectKey invScenario.args invScenario.flags)
    (by rw [hkey]; decide)
  have h2 := setCommentId_of_ne env
    (parseArgsAndFlags env.projectKey invScenario.args invScenario.flags)
    (by rw [parseArgsAndFlags_commentId]; decide)
  have hq :
      paramsBeforeBody env
          (parseArgsAndFlags env.projectKey invScenario.args invScenario.flags) =
        parseArgsAndFlags env.projectKey invScenario.args invScenario.flags := by
    unfold paramsBeforeBody
    rw [h1]
    show (setCommentId env
      (parseArgsAndFlags env.projectKey invScenario.args invScenario.flags)).1 =
      parseArgsAndFlags env.projectKey invScenario.args invScenario.flags
    rw [h2]
  have hlit := setBody_literal env
    (paramsBeforeBody env
      (parseArgsAndFlags env.projectKey invScenario.args invScenario.flags))
    (by rw [paramsBeforeBody_body, parseArgsAndFlags_body]; decide)
  have hpbni :
      (paramsBeforeBody env
        (parseArgsAndFlags env.projectKey invScenario.args invScenario.flags)).noInput =
        false := by
    rw [paramsBeforeBody_noInput, parseArgsAndFlags_noInput]
    rfl
  have hact : env.askAction ≠ ActionCancel := by
    rw [ha]
    decide
  have hag := afterGuard_ok_submit env invScenario
    (parseArgsAndFlags env.projectKey invScenario.args invScenario.flags) hlit hpbni
    hact
  have hev :
      Event.updateCall
          (paramsBeforeBody env
            (parseArgsAndFlags env.projectKey invScenario.args
              invScenario.flags)).issueKey
          (paramsBeforeBody env
            (parseArgsAndFlags env.projectKey invScenario.args
              invScenario.flags)).commentId
          (paramsBeforeBody env
            (parseArgsAndFlags env.projectKey invScenario.args
              invScenario.flags)).body
          (paramsBeforeBody env
            (parseArgsAndFlags env.projectKey invScenario.args
              invScenario.flags)).internal =
        Event.updateCall "PROJ-12" "1001" "fixed typo" true := by
    rw [hq, hkey]
    rfl
  refine ⟨?_, ?_, ?_, ?_⟩
  · have hself := commitEvents_updateCall_self env
      (paramsBeforeBody env
        (parseArgsAndFlags env.projectKey invScenario.args invScenario.flags))
      invScenario.flags.web
    rw [hev] at hself
    rw [hrun, hag]
    simp only [List.mem_append]
    right
    exact hself
  · rw [hrun, hag]
    simp
  · intro f hf
    rw [hrun, hag, h1, h2] at hf
    simp at hf
    rcases commitEvents_mem env _ _ hf with h | h | h | h <;> cases h
  · intro d hf
    rw [hrun, hag, h1, h2] at hf
    simp at hf
    rcases commitEvents_mem env _ _ hf with h | h | h | h <;> cases h

/-- Witness for C6 (amended) at the concrete sample environment. -/
theorem C6_scenario_amended_witness :
    sampleEnv.projectKey = "PROJ" ∧
      sampleEnv.stdinHasData = false ∧
      sampleEnv.askAction = ActionSubmit ∧
      (Event.updateCall "PROJ-12" "1001" "fixed typo" true ∈
          (runUpdate sampleEnv invScenario).2 ∧
        Event.promptConfirm ∈ (runUpdate sampleEnv invScenario).2 ∧
        (∀ f, Event.promptInput f ∉ (runUpdate sampleEnv invScenario).2) ∧
        (∀ d, Event.promptEditor d ∉ (runUpdate sampleEnv invScenario).2)) :=
  ⟨rfl, rfl, rfl, C6_scenario_amended sampleEnv rfl rfl rfl⟩

/-- C7 counterexample: with only the no-input flag set (empty args, empty
template, no piped stdin) the command still prompts for the issue key, so
"all prompting is suppressed" is false on the code (the flag's own help
text says it only disables prompts for non-required fields). -/
theorem C7_noInput_counterexample :
    Event.promptInput "issueKey" ∈ (runUpdate sampleEnv invOnlyNoInput).2 := by
  decide

/-- C7 (amended): with the no-input flag set, the editor prompt and the
submit/cancel confirmation prompt are suppressed — the body is resolved
from template, stdin or the default only — but the issue-key and
comment-id input prompts are still issued when those fields are empty. -/
theorem C7_noInput_suppresses_editor_and_confirm (env : Env) (inv : Invocation)
    (hni : inv.flags.noInput = true) :
    (∀ d, Event.promptEditor d ∉ (runUpdate env inv).2) ∧
      Event.promptConfirm ∉ (runUpdate env inv).2 := by
  have hqni : (paramsBeforeBody env (effectiveParams env inv)).noInput = true := by
    rw [paramsBeforeBody_noInput]
    exact effectiveParams_noInput_of_flag env inv hni
  constructor
  · intro d hmem
    rcases runUpdate_mem env inv hmem with ⟨f, hf⟩ | h | h | ⟨pb, tb, hsb, hc⟩
    · cases hf
    · exact setBody_noInput_no_editor env _ hqni h
    · cases h
    · rcases commitEvents_mem env _ pb hc with h | h | h | h <;> cases h
  · intro hmem
    by_cases h1 :
        isNonInteractive env (parseArgsAndFlags env.projectKey inv.args inv.flags) =
          true
    · by_cases h2 :
          isMandatoryParamsMissing
            (parseArgsAndFlags env.projectKey inv.args inv.flags) = true
      · rw [runUpdate_guard_fire env inv h1 h2] at hmem
        simp at hmem
      · have h2' :
            isMandatoryParamsMissing
              (parseArgsAndFlags env.projectKey inv.args inv.flags) = false := by
          simpa using h2
        rw [runUpdate_guard_pass env inv h1 h2'] at hmem
        refine afterGuard_noInput_no_confirm env inv _ ?_ hmem
        rw [← effectiveParams_of_nonInteractive env inv h1]
        exact hqni
    · have h1' :
          isNonInteractive env (parseArgsAndFlags env.projectKey inv.args inv.flags) =
            false := by
        simpa using h1
      rw [runUpdate_interactive env inv h1'] at hmem
      refine afterGuard_noInput_no_confirm env inv _ ?_ hmem
      rw [← effectiveParams_of_interactive env inv h1']
      exact hqni

/-- Witness for C7 (amended): the no-input invocation with empty fields. -/
theorem C7_noInput_suppresses_editor_and_confirm_witness :
    invOnlyNoInput.flags.noInput = true ∧
      ((∀ d, Event.promptEditor d ∉ (runUpdate sampleEnv invOnlyNoInput).2) ∧
        Event.promptConfirm ∉ (runUpdate sampleEnv invOnlyNoInput).2) :=
  ⟨rfl, C7_noInput_suppresses_editor_and_confirm sampleEnv invOnlyNoInput rfl⟩

/-- C8: in interactive mode with an empty positional body and an empty
template flag, the existing comment is fetched from the remote client; a
rich-document body is normalized through the document-to-markdown
translator and a legacy string body through the markup-to-markdown
converter, the result becoming the editor's default text; a fetch failure
is fatal with the underlying error. -/
theorem C8_interactive_remote_prefill (env : Env) (inv : Invocation)
    (hni : inv.flags.noInput = false)
    (hs : env.stdinHasData = false)
    (ht : inv.flags.template = "")
    (hb : inv.args.getD 2 "" = "") :
    Event.fetchComment
        (paramsBeforeBody env (effectiveParams env inv)).issueKey
        (paramsBeforeBody env (effectiveParams env inv)).commentId ∈
      (runUpdate env inv).2 ∧
    (∀ d,
      env.getComment (paramsBeforeBody env (effectiveParams env inv)).issueKey
          (paramsBeforeBody env (effectiveParams env inv)).commentId =
        .ok ⟨.doc d⟩ →
      Event.promptEditor (env.adfToMd d) ∈ (runUpdate env inv).2) ∧
    (∀ s,
      env.getComment (paramsBeforeBody env (effectiveParams env inv)).issueKey
          (paramsBeforeBody env (effectiveParams env inv)).commentId =
        .ok ⟨.str s⟩ →
      Event.promptEditor (env.mdFromJiraMD s) ∈ (runUpdate env inv).2) ∧
    (∀ e,
      env.getComment (paramsBeforeBody env (effectiveParams env inv)).issueKey
          (paramsBeforeBody env (effectiveParams env inv)).commentId =
        .error e →
      (runUpdate env inv).1 = .failed e) := by
  have hint :
      isNonInteractive env (parseArgsAndFlags env.projectKey inv.args inv.flags) =
        false := by
    unfold isNonInteractive
    rw [parseArgsAndFlags_template, hs]
    simp [ht]
  have heff := effectiveParams_of_interactive env inv hint
  have hrun := runUpdate_interactive env inv hint
  rw [heff, hrun]
  have hqb :
      (paramsBeforeBody env
        (parseArgsAndFlags env.projectKey inv.args inv.flags)).body = "" := by
    rw [paramsBeforeBody_body, parseArgsAndFlags_body]
    exact hb
  have hqt :
      (paramsBeforeBody env
        (parseArgsAndFlags env.projectKey inv.args inv.flags)).template = "" := by
    rw [paramsBeforeBody_template, parseArgsAndFlags_template]
    exact ht
  have hqni :
      (paramsBeforeBody env
        (parseArgsAndFlags env.projectKey inv.args inv.flags)).noInput = false := by
    rw [paramsBeforeBody_noInput, parseArgsAndFlags_noInput]
    exact hni
  have hbt := bodyFromTemplate_none env
    (paramsBeforeBody env (parseArgsAndFlags env.projectKey inv.args inv.flags)) hqt hs
  cases hg :
      env.getComment
        (paramsBeforeBody env
          (parseArgsAndFlags env.projectKey inv.args inv.flags)).issueKey
        (paramsBeforeBody env
          (parseArgsAndFlags env.projectKey inv.args inv.flags)).commentId with
  | error e0 =>
    have hbr := bodyFromRemote_error env
      (paramsBeforeBody env (parseArgsAndFlags env.projectKey inv.args inv.flags))
      hqt (d := "") hg
    have hsb := setBody_fail_remote env _ hqb hqni hbt hbr
    refine ⟨?_, ?_, ?_, ?_⟩
    · exact afterGuard_contains_setBody_events env inv _
        (by rw [hsb]; simp [StepRes.events])
    · intro d hd
      cases hd
    · intro s2 hd
      cases hd
    · intro e hd
      cases hd
      rw [afterGuard_fail env inv _ hsb]
  | ok c0 =>
    obtain ⟨cb⟩ := c0
    cases cb with
    | doc d0 =>
      have hbr := bodyFromRemote_doc env
        (paramsBeforeBody env (parseArgsAndFlags env.projectKey inv.args inv.flags))
        hqt (d := "") hg
      have hsb := setBody_interactive env _ hqb hqni hbt hbr
      refine ⟨?_, ?_, ?_, ?_⟩
      · exact afterGuard_contains_setBody_events env inv _
          (by rw [hsb]; simp [StepRes.events])
      · intro d hd
        simp only [Except.ok.injEq, Comment.mk.injEq, CommentBody.doc.injEq] at hd
        subst hd
        exact afterGuard_contains_setBody_events env inv _
          (by rw [hsb]; simp [StepRes.events])
      · intro s2 hd
        simp at hd
      · intro e hd
        cases hd
    | str s0 =>
      have hbr := bodyFromRemote_str env
        (paramsBeforeBody env (parseArgsAndFlags env.projectKey inv.args inv.flags))
        hqt (d := "") hg
      have hsb := setBody_interactive env _ hqb hqni hbt hbr
      refine ⟨?_, ?_, ?_, ?_⟩
      · exact afterGuard_contains_setBody_events env inv _
          (by rw [hsb]; simp [StepRes.events])
      · intro d hd
        simp at hd
      · intro s2 hd
        simp only [Except.ok.injEq, Comment.mk.injEq, CommentBody.str.injEq] at hd
        subst hd
        exact afterGuard_contains_setBody_events env inv _
          (by rw [hsb]; simp [StepRes.events])
      · intro e hd
        cases hd
    | other =>
      have hbr := bodyFromRemote_other env
        (paramsBeforeBody env (parseArgsAndFlags env.projectKey inv.args inv.flags))
        hqt (d := "") hg
      have hsb := setBody_fail_remote env _ hqb hqni hbt hbr
      refine ⟨?_, ?_, ?_, ?_⟩
      · exact afterGuard_contains_setBody_events env inv _
          (by rw [hsb]; simp [StepRes.events])
      · intro d hd
        simp at hd
      · intro s2 hd
        simp at hd
      · intro e hd
        cases hd

/-- Witness for C8: the sample remote comment carries a legacy string. -/
theorem C8_interactive_remote_prefill_witness :
    invInteractive.flags.noInput = false ∧
      sampleEnv.stdinHasData = false ∧
      invInteractive.flags.template = "" ∧
      invInteractive.args.getD 2 "" = "" ∧
      (Event.fetchComment
          (paramsBeforeBody sampleEnv (effectiveParams sampleEnv invInteractive)).issueKey
          (paramsBeforeBody sampleEnv
            (effectiveParams sampleEnv invInteractive)).commentId ∈
        (runUpdate sampleEnv invInteractive).2 ∧
      (∀ d,
        sampleEnv.getComment
            (paramsBeforeBody sampleEnv
              (effectiveParams sampleEnv invInteractive)).issueKey
            (paramsBeforeBody sampleEnv
              (effectiveParams sampleEnv invInteractive)).commentId =
          .ok ⟨.doc d⟩ →
        Event.promptEditor (sampleEnv.adfToMd d) ∈
          (runUpdate sampleEnv invInteractive).2) ∧
      (∀ s,
        sampleEnv.getComment
            (paramsBeforeBody sampleEnv
              (effectiveParams sampleEnv invInteractive)).issueKey
            (paramsBeforeBody sampleEnv
              (effectiveParams sampleEnv invInteractive)).commentId =
          .ok ⟨.str s⟩ →
        Event.promptEditor (sampleEnv.mdFromJiraMD s) ∈
          (runUpdate sampleEnv invInteractive).2) ∧
      (∀ e,
        sampleEnv.getComment
            (paramsBeforeBody sampleEnv
              (effectiveParams sampleEnv invInteractive)).issueKey
            (paramsBeforeBody sampleEnv
              (effectiveParams sampleEnv invInteractive)).commentId =
          .error e →
        (runUpdate sampleEnv invInteractive).1 = .failed e)) :=
  ⟨rfl, rfl, rfl, rfl,
    C8_interactive_remote_prefill sampleEnv invInteractive rfl rfl rfl rfl⟩

/-- C9: when the web flag is set, any browser navigation in the trace comes
only after the update call, the success print and the focused-comment deep
link print, and only when the remote update returned success; a navigation
failure makes the outcome that failure, but the update call has already
succeeded before the attempt. -/
theorem C9_navigation_after_update (env : Env) (inv : Invocation)
    (hw : inv.flags.web = true) :
    (∀ s k, Event.navigate s k ∈ (runUpdate env inv).2 →
      ∃ (pre : List Event) (K C B : String) (I : Bool),
        (runUpdate env inv).2 =
          pre ++ [Event.updateCall K C B I, Event.printSuccess C K,
            Event.printLink
              (browseURL env.serverURL K ++ "?focusedCommentId=" ++ C),
            Event.navigate env.serverURL K] ∧
        env.updateComment K C B I = .ok () ∧ s = env.serverURL ∧ k = K) ∧
    (∀ e, env.navigateRes = .error e →
      (∃ s k, Event.navigate s k ∈ (runUpdate env inv).2) →
      (runUpdate env inv).1 = .failed e) := by
  constructor
  · intro s k hmem
    obtain ⟨pre, pb, htr, hu, hs', hk, _⟩ := runUpdate_navigate env inv hmem
    exact ⟨pre, pb.issueKey, pb.commentId, pb.body, pb.internal, htr, hu, hs', hk⟩
  · rintro e hnav ⟨s, k, hmem⟩
    obtain ⟨pre, pb, htr, hu, hs', hk, hout⟩ := runUpdate_navigate env inv hmem
    rw [hout, hnav]

/-- Witness for C9: the web invocation against the sample environment. -/
theorem C9_navigation_after_update_witness :
    invWeb.flags.web = true ∧
      ((∀ s k, Event.navigate s k ∈ (runUpdate sampleEnv invWeb).2 →
        ∃ (pre : List Event) (K C B : String) (I : Bool),
          (runUpdate sampleEnv invWeb).2 =
            pre ++ [Event.updateCall K C B I, Event.printSuccess C K,
              Event.printLink
                (browseURL sampleEnv.serverURL K ++ "?focusedCommentId=" ++ C),
              Event.navigate sampleEnv.serverURL K] ∧
          sampleEnv.updateComment K C B I = .ok () ∧ s = sampleEnv.serverURL ∧
            k = K) ∧
      (∀ e, sampleEnv.navigateRes = .error e →
        (∃ s k, Event.navigate s k ∈ (runUpdate sampleEnv invWeb).2) →
        (runUpdate sampleEnv invWeb).1 = .failed e)) :=
  ⟨rfl, C9_navigation_after_update sampleEnv invWeb rfl⟩

/-- C10: in the remote-prefill path (interactive, empty body, empty
template), a fetched comment body that is neither a rich-document nor a
string makes the program panic through the unchecked type assertion. -/
theorem C10_panics_on_unknown_body_type (env : Env) (inv : Invocation)
    (hni : inv.flags.noInput = false)
    (hs : env.stdinHasData = false)
    (ht : inv.flags.template = "")
    (hb : inv.args.getD 2 "" = "")
    (hg : env.getComment (paramsBeforeBody env (effectiveParams env inv)).issueKey
        (paramsBeforeBody env (effectiveParams env inv)).commentId = .ok ⟨.other⟩) :
    (runUpdate env inv).1 = .panicked := by
  have hint :
      isNonInteractive env (parseArgsAndFlags env.projectKey inv.args inv.flags) =
        false := by
    unfold isNonInteractive
    rw [parseArgsAndFlags_template, hs]
    simp [ht]
  have heff := effectiveParams_of_interactive env inv hint
  have hrun := runUpdate_interactive env inv hint
  rw [heff] at hg
  rw [hrun]
  have hqb :
      (paramsBeforeBody env
        (parseArgsAndFlags env.projectKey inv.args inv.flags)).body = "" := by
    rw [paramsBeforeBody_body, parseArgsAndFlags_body]
    exact hb
  have hqt :
      (paramsBeforeBody env
        (parseArgsAndFlags env.projectKey inv.args inv.flags)).template = "" := by
    rw [paramsBeforeBody_template, parseArgsAndFlags_template]
    exact ht
  have hqni :
      (paramsBeforeBody env
        (parseArgsAndFlags env.projectKey inv.args inv.flags)).noInput = false := by
    rw [paramsBeforeBody_noInput, parseArgsAndFlags_noInput]
    exact hni
  have hbt := bodyFromTemplate_none env
    (paramsBeforeBody env (parseArgsAndFlags env.projectKey inv.args inv.flags)) hqt hs
  have hbr := bodyFromRemote_other env
    (paramsBeforeBody env (parseArgsAndFlags env.projectKey inv.args inv.flags))
    hqt (d := "") hg
  have hsb := setBody_fail_remote env _ hqb hqni hbt hbr
  rw [afterGuard_fail env inv _ hsb]

/-- Witness for C10: a fetched body of an unexpected type. -/
theorem C10_panics_on_unknown_body_type_witness :
    invInteractive.flags.noInput = false ∧
      envOther.stdinHasData = false ∧
      invInteractive.flags.template = "" ∧
      invInteractive.args.getD 2 "" = "" ∧
      envOther.getComment
          (paramsBeforeBody envOther (effectiveParams envOther invInteractive)).issueKey
          (paramsBeforeBody envOther
            (effectiveParams envOther invInteractive)).commentId = .ok ⟨.other⟩ ∧
      (runUpdate envOther invInteractive).1 = .panicked :=
  ⟨rfl, rfl, rfl, rfl, rfl,
    C10_panics_on_unknown_body_type envOther invInteractive rfl rfl rfl rfl rfl⟩

end JiraCommentUpdate
